import Mathlib

/-!
Verification of the Issue-classifier core (`classify.js`).

The JavaScript source is shallowly embedded: exceptions become `Except JsError`,
`undefined`/`null` become `Option`, JS objects parsed by `JSON.parse` become the
inductive `Json`, and the two provider clients become stub functions from a
request to `Except JsError ChatResponse`.  Strings are processed as `List Char`
to mirror the character-level regex operations of the source.
-/

/-- The kinds of runtime error that can be thrown in the embedded code.
`configurationError` models the `Error` thrown by the constructor,
`providerError` any error thrown by a `chat.completions.create` call,
`typeError` a JS `TypeError` from accessing a property of `undefined`,
`noJSONFound` the `Error("No JSON found in model response")` of `extractJSON`,
and `malformedJSON` the `SyntaxError` thrown by `JSON.parse`. -/
inductive JsError where
  | configurationError (msg : String)
  | providerError (msg : String)
  | typeError (msg : String)
  | noJSONFound
  | malformedJSON
  deriving Repr, DecidableEq

/-- JSON values as produced by `JSON.parse`.  Number lexemes are kept verbatim
(the claims never inspect numeric values, so IEEE-754 conversion is not
modelled); object fields are kept in source order. -/
inductive Json where
  | null : Json
  | bool : Bool → Json
  | num : String → Json
  | str : String → Json
  | arr : List Json → Json
  | obj : List (String × Json) → Json

/-- The opening-brace character, `\x7b`. -/
def lbrace : Char := Char.ofNat 123

/-- The closing-brace character, `\x7d`. -/
def rbrace : Char := Char.ofNat 125

/-- The backquote character that delimits markdown code fences. -/
def backquote : Char := Char.ofNat 96

/-- The seven-character fence marker matched first by the regex
in `extractJSON`: three backquotes followed by the letters of "json". -/
def fenceJson : List Char := [backquote, backquote, backquote, 'j', 's', 'o', 'n']

/-- The three-character bare fence marker, the regex's second alternative. -/
def fenceBare : List Char := [backquote, backquote, backquote]

/-- `startsWithChars p l` is true when `p` is an initial segment of `l`. -/
def startsWithChars : List Char → List Char → Bool
  | [], _ => true
  | _ :: _, [] => false
  | p :: ps, c :: cs => p == c && startsWithChars ps cs

/-- Fuelled worker for `stripFences`.  Models one left-to-right pass of
`text.replace(/```json|```/g, "")`: at each position the seven-character
alternative is tried before the three-character one, the matched text is
deleted, and scanning resumes immediately after the match. -/
def stripFencesF : Nat → List Char → List Char
  | 0, l => l
  | _ + 1, [] => []
  | fuel + 1, c :: cs =>
    if startsWithChars fenceJson (c :: cs) then stripFencesF fuel (cs.drop 6)
    else if startsWithChars fenceBare (c :: cs) then stripFencesF fuel (cs.drop 2)
    else c :: stripFencesF fuel cs

/-- `text.replace(/```json|```/g, "")` from `extractJSON`.  The fuel
`l.length` suffices because every step consumes at least one character. -/
def stripFences (l : List Char) : List Char := stripFencesF l.length l

/-- The WhiteSpace and LineTerminator code points removed by
`String.prototype.trim`. -/
def isJsTrimWs (c : Char) : Bool :=
  c == ' ' || c == '\t' || c == '\n' || c == '\r' ||
  c.toNat == 0x0B || c.toNat == 0x0C || c.toNat == 0xA0 || c.toNat == 0x1680 ||
  (0x2000 ≤ c.toNat && c.toNat ≤ 0x200A) ||
  c.toNat == 0x2028 || c.toNat == 0x2029 || c.toNat == 0x202F ||
  c.toNat == 0x205F || c.toNat == 0x3000 || c.toNat == 0xFEFF

/-- `.trim()`: remove leading and trailing JS whitespace. -/
def jsTrim (l : List Char) : List Char :=
  ((l.dropWhile isJsTrimWs).reverse.dropWhile isJsTrimWs).reverse

/-- The prefix of `l` that ends at the last occurrence of `c` (inclusive);
`[]` when `c` does not occur in `l`. -/
def upToLast (c : Char) : List Char → List Char
  | [] => []
  | x :: xs =>
    match upToLast c xs with
    | [] => if x == c then [x] else []
    | r => x :: r

/-- `cleaned.match(/\{[\s\S]*\}/)` from `extractJSON`: the match, when it
exists, runs from the first opening brace to the last closing brace of the
text (the quantifier is greedy and `[\s\S]` spans newlines).  A match exists
exactly when some closing brace occurs strictly after the first opening
brace. -/
def braceSlice : List Char → Option (List Char)
  | [] => none
  | c :: cs =>
    if c == lbrace then
      if rbrace ∈ cs then some (lbrace :: upToLast rbrace cs) else none
    else braceSlice cs

/-- The whitespace accepted between JSON tokens by `JSON.parse`
(ECMA-404: space, tab, line feed, carriage return). -/
def isJsonWs (c : Char) : Bool :=
  c == ' ' || c == '\t' || c == '\n' || c == '\r'

/-- Skip JSON inter-token whitespace. -/
def skipWs (l : List Char) : List Char := l.dropWhile isJsonWs

/-- Is `c` a hexadecimal digit? -/
def isHexDigit (c : Char) : Bool :=
  c.isDigit || ('a' ≤ c && c ≤ 'f') || ('A' ≤ c && c ≤ 'F')

/-- Numeric value of a hexadecimal digit. -/
def hexVal (c : Char) : Nat :=
  if c.isDigit then c.toNat - '0'.toNat
  else if 'a' ≤ c && c ≤ 'f' then c.toNat - 'a'.toNat + 10
  else c.toNat - 'A'.toNat + 10

/-- Body of a JSON string literal, after the opening quote: returns the decoded
characters and the remainder after the closing quote.  Handles the JSON escape
sequences and rejects unescaped control characters, as `JSON.parse` does.
(`\uXXXX` is decoded as a single code point; UTF-16 surrogate pairing is not
modelled — no claim involves non-BMP text.) -/
def parseStrBody : List Char → Option (List Char × List Char)
  | [] => none
  | '"' :: rest => some ([], rest)
  | '\\' :: rest =>
    match rest with
    | '"' :: r => (parseStrBody r).map (fun p => ('"' :: p.1, p.2))
    | '\\' :: r => (parseStrBody r).map (fun p => ('\\' :: p.1, p.2))
    | '/' :: r => (parseStrBody r).map (fun p => ('/' :: p.1, p.2))
    | 'b' :: r => (parseStrBody r).map (fun p => (Char.ofNat 8 :: p.1, p.2))
    | 'f' :: r => (parseStrBody r).map (fun p => (Char.ofNat 12 :: p.1, p.2))
    | 'n' :: r => (parseStrBody r).map (fun p => ('\n' :: p.1, p.2))
    | 'r' :: r => (parseStrBody r).map (fun p => ('\r' :: p.1, p.2))
    | 't' :: r => (parseStrBody r).map (fun p => ('\t' :: p.1, p.2))
    | 'u' :: h1 :: h2 :: h3 :: h4 :: r =>
      if isHexDigit h1 && isHexDigit h2 && isHexDigit h3 && isHexDigit h4 then
        (parseStrBody r).map (fun p =>
          (Char.ofNat (((hexVal h1 * 16 + hexVal h2) * 16 + hexVal h3) * 16 + hexVal h4) :: p.1,
           p.2))
      else none
    | _ => none
  | c :: rest =>
    if c.toNat < 0x20 then none
    else (parseStrBody rest).map (fun p => (c :: p.1, p.2))

/-- A JSON number lexeme (`-?int frac? exp?`), returned verbatim together with
the remainder; `none` when the text does not start with a valid number. -/
def parseNumLex (l : List Char) : Option (List Char × List Char) :=
  let (sign, l1) := match l with
    | '-' :: r => (['-'], r)
    | _ => (([] : List Char), l)
  match l1 with
  | [] => none
  | c :: r =>
    if c == '0' then numFrac (sign ++ ['0']) r
    else if c.isDigit then
      numFrac (sign ++ (c :: r.takeWhile Char.isDigit)) (r.dropWhile Char.isDigit)
    else none
where
  /-- Optional fraction part, then the optional exponent. -/
  numFrac (acc : List Char) (l : List Char) : Option (List Char × List Char) :=
    match l with
    | '.' :: r =>
      let ds := r.takeWhile Char.isDigit
      if ds.isEmpty then none
      else numExp (acc ++ ('.' :: ds)) (r.dropWhile Char.isDigit)
    | _ => numExp acc l
  /-- Optional exponent part. -/
  numExp (acc : List Char) (l : List Char) : Option (List Char × List Char) :=
    match l with
    | c :: r =>
      if c == 'e' || c == 'E' then
        let (sgn, r1) := match r with
          | '+' :: r2 => (['+'], r2)
          | '-' :: r2 => (['-'], r2)
          | _ => (([] : List Char), r)
        let ds := r1.takeWhile Char.isDigit
        if ds.isEmpty then none
        else some (acc ++ (c :: sgn ++ ds), r1.dropWhile Char.isDigit)
      else some (acc, l)
    | [] => some (acc, l)

mutual

/-- Recursive-descent parser for one JSON value, fuelled to make the recursion
structural.  Mirrors the grammar accepted by `JSON.parse`. -/
def parseVal : Nat → List Char → Option (Json × List Char)
  | 0, _ => none
  | fuel + 1, l =>
    let l := skipWs l
    match l with
    | 'n' :: 'u' :: 'l' :: 'l' :: rest => some (.null, rest)
    | 't' :: 'r' :: 'u' :: 'e' :: rest => some (.bool true, rest)
    | 'f' :: 'a' :: 'l' :: 's' :: 'e' :: rest => some (.bool false, rest)
    | '"' :: rest => (parseStrBody rest).map (fun p => (.str (String.mk p.1), p.2))
    | c :: rest =>
      if c == lbrace then
        let r := skipWs rest
        match r with
        | c2 :: r2 => if c2 == rbrace then some (.obj [], r2) else
            (parseMembers fuel (c2 :: r2)).map (fun p => (.obj p.1, p.2))
        | [] => none
      else if c == '[' then
        let r := skipWs rest
        match r with
        | ']' :: r2 => some (.arr [], r2)
        | _ => (parseElems fuel r).map (fun p => (.arr p.1, p.2))
      else (parseNumLex l).map (fun p => (.num (String.mk p.1), p.2))
    | [] => none

/-- One or more `"key": value` members followed by the closing brace. -/
def parseMembers : Nat → List Char → Option (List (String × Json) × List Char)
  | 0, _ => none
  | fuel + 1, l =>
    match skipWs l with
    | '"' :: rest =>
      match parseStrBody rest with
      | none => none
      | some (key, r1) =>
        match skipWs r1 with
        | ':' :: r2 =>
          match parseVal fuel r2 with
          | none => none
          | some (v, r3) =>
            match skipWs r3 with
            | c :: r4 =>
              if c == ',' then
                (parseMembers fuel r4).map (fun p => ((String.mk key, v) :: p.1, p.2))
              else if c == rbrace then some ([(String.mk key, v)], r4)
              else none
            | [] => none
        | _ => none
    | _ => none

/-- One or more array elements followed by the closing bracket. -/
def parseElems : Nat → List Char → Option (List Json × List Char)
  | 0, _ => none
  | fuel + 1, l =>
    match parseVal fuel l with
    | none => none
    | some (v, r) =>
      match skipWs r with
      | ',' :: r2 => (parseElems fuel r2).map (fun p => (v :: p.1, p.2))
      | ']' :: r2 => some ([v], r2)
      | _ => none

end

/-- `JSON.parse`: parse a complete JSON text; `none` models a thrown
`SyntaxError`.  The fuel `l.length + 1` is ample: every unit of fuel spent
consumes at least one character of input. -/
def jsonParse (l : List Char) : Option Json :=
  match parseVal (l.length + 1) l with
  | some (j, rest) => if (skipWs rest).isEmpty then some j else none
  | none => none

/-- `extractJSON(text)` (classify.js, lines 108–117): strip code fences, trim,
match first-`\x7b`-to-last-`\x7d`, and `JSON.parse` the match.  The two throw
sites become the two error constructors. -/
def extractJSON (text : String) : Except JsError Json :=
  let cleaned := jsTrim (stripFences text.toList)
  match braceSlice cleaned with
  | none => .error .noJSONFound
  | some slice =>
    match jsonParse slice with
    | some j => .ok j
    | none => .error .malformedJSON

/-- A chat message sent to a provider. -/
structure ChatMessage where
  role : String
  content : String
  deriving Repr, DecidableEq

/-- The request object passed to `chat.completions.create`. -/
structure ChatRequest where
  model : String
  messages : List ChatMessage
  max_tokens : Nat
  deriving Repr, DecidableEq

/-- The `message` field of a response choice; `content := none` models a
missing / `undefined` content property. -/
structure RespMessage where
  content : Option String
  deriving Repr, DecidableEq

/-- One element of a response's `choices` array; `message := none` models a
choice without a `message` property. -/
structure Choice where
  message : Option RespMessage
  deriving Repr, DecidableEq

/-- A provider response as accessed by `classifyIssue`: only the `choices`
array is read. -/
structure ChatResponse where
  choices : List Choice
  deriving Repr, DecidableEq

/-- An `OpenAI` client object as configured in the constructor: the key and
the base URL it is created with. -/
structure OpenAIClient where
  apiKey : String
  baseURL : String
  deriving Repr, DecidableEq

/-- The state of an `IssueClassifier` instance after construction. -/
structure IssueClassifier where
  mosaiaClient : OpenAIClient
  fallbackClient : OpenAIClient
  mosaiaAgentId : String
  deriving Repr, DecidableEq

/-- JS falsiness of a credential value: `undefined` (modelled `none`) and the
empty string are the falsy cases of `!value` for absent-or-string values. -/
def jsFalsy : Option String → Bool
  | none => true
  | some s => s == ""

/-- The `IssueClassifier` constructor (classify.js, lines 80–100): throws on
any falsy credential, otherwise creates the two clients with their fixed base
URLs and stores the agent id. -/
def mkIssueClassifier (mosaiaApiKey mosaiaAgentId openRouterApiKey : Option String) :
    Except JsError IssueClassifier :=
  if jsFalsy mosaiaApiKey || jsFalsy mosaiaAgentId || jsFalsy openRouterApiKey then
    .error (.configurationError
      "All API keys and agent IDs must be provided: mosaiaApiKey, mosaiaAgentId, openRouterApiKey")
  else
    .ok { mosaiaClient := { apiKey := mosaiaApiKey.getD "",
                            baseURL := "https://api.mosaia.ai/v1/agent" }
          fallbackClient := { apiKey := openRouterApiKey.getD "",
                              baseURL := "https://openrouter.ai/api/v1" }
          mosaiaAgentId := mosaiaAgentId.getD "" }

/-- `const labelString = labels.length > 0 ? labels.join(", ") : "None";` -/
def labelString (labels : List String) : String :=
  if labels.length > 0 then String.intercalate ", " labels else "None"

/-- The fixed template text preceding the first `${labelString}` interpolation:
the rubric with the three difficulty tiers and the start of the analysis
checklist.  Byte-for-byte the template literal of `buildPrompt`. -/
def promptHead : String :=
  "\n    You are an expert AI assistant specializing in classifying GitHub issues by difficulty: easy, medium, or difficult.\n\n    Use the following criteria for classification:\n\n    - **Easy:** Issues that involve minor bug fixes or simple UI/UX adjustments with minimal code changes. These tasks are well-scoped, localized to a specific module or component, have low risk of side effects, and can typically be resolved quickly without extensive debugging or testing. Examples include fixing typos, small layout corrections, or straightforward event handling fixes.\n    - **Medium:** Issues that require moderate debugging, code refactoring, or the addition of new features that impact multiple components or modules. These tasks demand a solid understanding of the overall system architecture, asynchronous flows, or state management. They may involve integrating with third-party APIs, updating data flows, or handling edge cases. Testing and validation across different environments or devices may be necessary to ensure stability.\n    - **Difficult:** Complex challenges involving significant architectural redesign, cross-platform or multi-service integration, critical security improvements, or major performance optimizations. These issues require deep expertise in the technology stack, comprehensive knowledge of system dependencies, and careful planning to minimize risks. They often necessitate extensive code changes, multi-phase development, thorough testing (including regression and load testing), and possibly coordination across teams.\n\n    Analyze the issue considering:\n    - Title\n    - Description\n    - Programming language and relevant technology stack\n    - Issue labels: "

/-- The fixed template text between the first `${labelString}` and `${title}`:
the rest of the checklist, the JSON-only output instruction, and the example. -/
def promptMid : String :=
  "\n    - Complexity of debugging, implementation, or testing needed\n    - Potential impact on the overall system\n\n    **IMPORTANT:** Respond ONLY with a JSON object in the following format, without any explanation:\n\n    \x7b \"difficulty\": \"easy\" | \"medium\" | \"difficult\" \x7d\n\n    Example:\n\n    \x7b \"difficulty\": \"easy\" \x7d\n\n    Classify this issue:\n\n    Title: "

/-- `buildPrompt(title, description, language, labels)` (classify.js,
lines 127–162): the template literal with its four interpolations
(`labelString` appears twice). -/
def buildPrompt (title description language : String) (labels : List String) : String :=
  promptHead ++ labelString labels ++ promptMid ++ title
    ++ "\n    Description: " ++ description
    ++ "\n    Language: " ++ language
    ++ "\n    Labels: " ++ labelString labels
    ++ "\n    "

/-- The fixed fallback model identifier of the OpenRouter call. -/
def fallbackModel : String := "mistralai/mistral-small-3.2-24b-instruct:free"

/-- `[{ role: "user", content: prompt }]`: the single user message of both
outbound calls. -/
def userMessage (prompt : String) : List ChatMessage :=
  [{ role := "user", content := prompt }]

/-- The request sent to the primary (Mosaia) client. -/
def primaryRequest (c : IssueClassifier) (prompt : String) : ChatRequest :=
  { model := c.mosaiaAgentId, messages := userMessage prompt, max_tokens := 500 }

/-- The request sent to the fallback (OpenRouter) client. -/
def fallbackRequest (prompt : String) : ChatRequest :=
  { model := fallbackModel, messages := userMessage prompt, max_tokens := 500 }

/-- `res.choices[0].message.content` as evaluated inside either `try` block:
indexing an empty `choices` array or reading `message`/`content` off
`undefined` throws a `TypeError` (for missing `content` the throw actually
happens one line later, when `extractJSON` calls `replace` on the
`undefined` text — observationally the same attempt failure). -/
def respText (r : ChatResponse) : Except JsError String :=
  match r.choices with
  | [] => .error (.typeError "Cannot read properties of undefined (reading message)")
  | ch :: _ =>
    match ch.message with
    | none => .error (.typeError "Cannot read properties of undefined (reading content)")
    | some m =>
      match m.content with
      | none => .error (.typeError "Cannot read properties of undefined (reading replace)")
      | some s => .ok s

/-- One stubbed behaviour of the two providers: what each
`chat.completions.create` call returns (or throws) for a given request. -/
structure ProviderBehavior where
  primary : ChatRequest → Except JsError ChatResponse
  fallback : ChatRequest → Except JsError ChatResponse

/-- Which provider a recorded outbound call went to. -/
inductive ProviderTag where
  | primary
  | fallback
  deriving Repr, DecidableEq

/-- The body of one `try` block of `classifyIssue`: make the call, read
`choices[0].message.content`, and run `extractJSON` on it.  Any error is the
exception caught by the corresponding `catch`. -/
def runAttempt (call : ChatRequest → Except JsError ChatResponse) (req : ChatRequest) :
    Except JsError Json := do
  let r ← call req
  let s ← respText r
  extractJSON s

/-- `classifyIssue(title, description, language, labels)` (classify.js,
lines 173–206), instrumented with the ordered list of outbound calls made.
The outer `Except` layer is the function's own exception channel: a `.error`
result would model an exception escaping to the caller, `.ok none` models the
`return null` of the fallback `catch`. -/
def classifyIssueT (c : IssueClassifier) (pb : ProviderBehavior)
    (title description language : String) (labels : List String) :
    Except JsError (Option Json) × List (ProviderTag × ChatRequest) :=
  let prompt := buildPrompt title description language labels
  let preq := primaryRequest c prompt
  match runAttempt pb.primary preq with
  | .ok j => (.ok (some j), [(.primary, preq)])
  | .error _ =>
    let freq := fallbackRequest prompt
    match runAttempt pb.fallback freq with
    | .ok j => (.ok (some j), [(.primary, preq), (.fallback, freq)])
    | .error _ => (.ok none, [(.primary, preq), (.fallback, freq)])

/-- `classifyIssue` proper: the value returned (or exception raised) to the
caller. -/
def classifyIssue (c : IssueClassifier) (pb : ProviderBehavior)
    (title description language : String) (labels : List String) :
    Except JsError (Option Json) :=
  (classifyIssueT c pb title description language labels).1

/-- A provider response is structurally malformed when `choices` is empty, the
first choice has no `message`, or that message has no `content`. -/
def malformedResp (r : ChatResponse) : Prop :=
  r.choices = [] ∨ ∃ ch rest, r.choices = ch :: rest ∧
    (ch.message = none ∨ ∃ m, ch.message = some m ∧ m.content = none)

theorem upToLast_of_not_mem (c : Char) (l : List Char) (h : c ∉ l) :
    upToLast c l = [] := by
  induction l with
  | nil => rfl
  | cons x xs ih =>
    have hx : ¬x = c := fun hc => h (hc ▸ List.mem_cons_self x xs)
    have hxs : c ∉ xs := fun hc => h (List.mem_cons_of_mem x hc)
    rw [upToLast, ih hxs]
    simp [hx]

theorem upToLast_last (c : Char) (mid post : List Char) (h : c ∉ post) :
    upToLast c (mid ++ c :: post) = mid ++ [c] := by
  induction mid with
  | nil =>
    rw [List.nil_append, upToLast, upToLast_of_not_mem c post h]
    simp
  | cons x xs ih =>
    rw [List.cons_append, upToLast, ih]
    cases xs <;> simp

theorem braceSlice_skip (pre rest : List Char) (h : lbrace ∉ pre) :
    braceSlice (pre ++ rest) = braceSlice rest := by
  induction pre with
  | nil => rfl
  | cons x xs ih =>
    have hx : ¬x = lbrace := fun hc => h (hc ▸ List.mem_cons_self x xs)
    have hxs : lbrace ∉ xs := fun hc => h (List.mem_cons_of_mem x hc)
    rw [List.cons_append, braceSlice]
    simp [hx, ih hxs]

theorem classifyIssueT_primary_ok (c : IssueClassifier) (pb : ProviderBehavior)
    (t d l : String) (ls : List String) (j : Json)
    (hp : runAttempt pb.primary (primaryRequest c (buildPrompt t d l ls)) = .ok j) :
    classifyIssueT c pb t d l ls =
      (.ok (some j), [(.primary, primaryRequest c (buildPrompt t d l ls))]) := by
  simp only [classifyIssueT]
  rw [hp]

theorem classifyIssueT_fallback_ok (c : IssueClassifier) (pb : ProviderBehavior)
    (t d l : String) (ls : List String) (e : JsError) (j : Json)
    (hp : runAttempt pb.primary (primaryRequest c (buildPrompt t d l ls)) = .error e)
    (hf : runAttempt pb.fallback (fallbackRequest (buildPrompt t d l ls)) = .ok j) :
    classifyIssueT c pb t d l ls =
      (.ok (some j), [(.primary, primaryRequest c (buildPrompt t d l ls)),
                      (.fallback, fallbackRequest (buildPrompt t d l ls))]) := by
  simp only [classifyIssueT]
  rw [hp, hf]

theorem classifyIssueT_both_fail (c : IssueClassifier) (pb : ProviderBehavior)
    (t d l : String) (ls : List String) (e₁ e₂ : JsError)
    (hp : runAttempt pb.primary (primaryRequest c (buildPrompt t d l ls)) = .error e₁)
    (hf : runAttempt pb.fallback (fallbackRequest (buildPrompt t d l ls)) = .error e₂) :
    classifyIssueT c pb t d l ls =
      (.ok none, [(.primary, primaryRequest c (buildPrompt t d l ls)),
                  (.fallback, fallbackRequest (buildPrompt t d l ls))]) := by
  simp only [classifyIssueT]
  rw [hp, hf]

theorem respText_of_malformed (r : ChatResponse) (hm : malformedResp r) :
    ∃ msg, respText r = .error (.typeError msg) := by
  rcases hm with h0 | ⟨ch, rest, hcons, hch⟩
  · exact ⟨_, by rw [respText, h0]⟩
  · rcases hch with hnone | ⟨m, hsome, hcontent⟩
    · exact ⟨"Cannot read properties of undefined (reading content)",
        by simp [respText, hcons, hnone]⟩
    · exact ⟨"Cannot read properties of undefined (reading replace)",
        by simp [respText, hcons, hsome, hcontent]⟩

/-- A concrete classifier instance, as built from non-empty credentials. -/
def cEx : IssueClassifier :=
  { mosaiaClient := { apiKey := "mk-1", baseURL := "https://api.mosaia.ai/v1/agent" }
    fallbackClient := { apiKey := "or-1", baseURL := "https://openrouter.ai/api/v1" }
    mosaiaAgentId := "6861a37adc8f3af29840e926" }

/-- A concrete transport error. -/
def errProv : JsError := .providerError "network failure"

/-- Behaviour in which both providers throw. -/
def pbBothFail : ProviderBehavior :=
  { primary := fun _ => .error errProv, fallback := fun _ => .error errProv }

/-- A well-formed response whose text is `{"difficulty":"easy"}`. -/
def respEasy : ChatResponse :=
  { choices := [{ message := some { content := some "\x7b\"difficulty\":\"easy\"\x7d" } }] }

/-- A well-formed response whose text is `{"difficulty":"difficult"}`. -/
def respDifficult : ChatResponse :=
  { choices := [{ message := some { content := some "\x7b\"difficulty\":\"difficult\"\x7d" } }] }

/-- Behaviour in which the primary throws and the fallback succeeds. -/
def pbFallbackOk : ProviderBehavior :=
  { primary := fun _ => .error errProv, fallback := fun _ => .ok respEasy }

/-- Behaviour in which the primary succeeds. -/
def pbPrimaryOk : ProviderBehavior :=
  { primary := fun _ => .ok respDifficult, fallback := fun _ => .error errProv }

/-- A structurally malformed response: empty `choices` array. -/
def respNoChoices : ChatResponse := { choices := [] }

/-- A structurally malformed response: first choice's message has no content. -/
def respNoContent : ChatResponse := { choices := [{ message := some { content := none } }] }

/-- Behaviour in which both providers return structurally malformed responses. -/
def pbMalformed : ProviderBehavior :=
  { primary := fun _ => .ok respNoChoices, fallback := fun _ => .ok respNoContent }

/-- C1: for every input and every behaviour of the two providers,
`classifyIssue` never raises an exception to its caller — every result is
`.ok` — and when both the primary and the fallback attempts fail the call
returns `null`. -/
theorem classifyIssue_no_exception :
    (∀ (c : IssueClassifier) (pb : ProviderBehavior) (t d l : String) (ls : List String),
      ∃ r, classifyIssue c pb t d l ls = .ok r) ∧
    (∀ (c : IssueClassifier) (pb : ProviderBehavior) (t d l : String) (ls : List String)
       (e₁ e₂ : JsError),
      runAttempt pb.primary (primaryRequest c (buildPrompt t d l ls)) = .error e₁ →
      runAttempt pb.fallback (fallbackRequest (buildPrompt t d l ls)) = .error e₂ →
      classifyIssue c pb t d l ls = .ok none) := by
  constructor
  · intro c pb t d l ls
    cases hp : runAttempt pb.primary (primaryRequest c (buildPrompt t d l ls)) with
    | ok j =>
      exact ⟨some j, by rw [classifyIssue, classifyIssueT_primary_ok c pb t d l ls j hp]⟩
    | error e₁ =>
      cases hf : runAttempt pb.fallback (fallbackRequest (buildPrompt t d l ls)) with
      | ok j =>
        exact ⟨some j, by rw [classifyIssue, classifyIssueT_fallback_ok c pb t d l ls e₁ j hp hf]⟩
      | error e₂ =>
        exact ⟨none, by rw [classifyIssue, classifyIssueT_both_fail c pb t d l ls e₁ e₂ hp hf]⟩
  · intro c pb t d l ls e₁ e₂ hp hf
    rw [classifyIssue, classifyIssueT_both_fail c pb t d l ls e₁ e₂ hp hf]

/-- Witness for C1: with both providers throwing a transport error, the call
returns `null` and no exception escapes. -/
theorem classifyIssue_no_exception_witness :
    classifyIssue cEx pbBothFail "t" "d" "JavaScript" [] = .ok none :=
  classifyIssue_no_exception.2 cEx pbBothFail "t" "d" "JavaScript" [] errProv errProv rfl rfl

/-- C2: whenever the primary attempt fails for any reason, `classifyIssue`
makes exactly one fallback attempt, whose request carries the same prompt as
a single user message, the fixed model identifier
`"mistralai/mistral-small-3.2-24b-instruct:free"`, and the same `max_tokens`
cap of 500; on fallback success it returns the object parsed from the
fallback response text. -/
theorem classifyIssue_fallback_attempt (c : IssueClassifier) (pb : ProviderBehavior)
    (t d l : String) (ls : List String) (e : JsError)
    (hp : runAttempt pb.primary (primaryRequest c (buildPrompt t d l ls)) = .error e) :
    ((classifyIssueT c pb t d l ls).2 =
      [(.primary, primaryRequest c (buildPrompt t d l ls)),
       (.fallback, fallbackRequest (buildPrompt t d l ls))]) ∧
    (fallbackRequest (buildPrompt t d l ls) =
      { model := "mistralai/mistral-small-3.2-24b-instruct:free",
        messages := [{ role := "user", content := buildPrompt t d l ls }],
        max_tokens := 500 }) ∧
    (∀ (resp : ChatResponse) (s : String) (j : Json),
      pb.fallback (fallbackRequest (buildPrompt t d l ls)) = .ok resp →
      respText resp = .ok s → extractJSON s = .ok j →
      classifyIssue c pb t d l ls = .ok (some j)) := by
  refine ⟨?_, rfl, ?_⟩
  · cases hf : runAttempt pb.fallback (fallbackRequest (buildPrompt t d l ls)) with
    | ok j => rw [classifyIssueT_fallback_ok c pb t d l ls e j hp hf]
    | error e₂ => rw [classifyIssueT_both_fail c pb t d l ls e e₂ hp hf]
  · intro resp s j hresp htext hjson
    have hf : runAttempt pb.fallback (fallbackRequest (buildPrompt t d l ls)) = .ok j := by
      simp only [runAttempt, hresp]
      show respText resp >>= (fun s => extractJSON s) = Except.ok j
      rw [htext]
      show extractJSON s = Except.ok j
      exact hjson
    rw [classifyIssue, classifyIssueT_fallback_ok c pb t d l ls e j hp hf]

/-- Witness for C2: primary throws a transport error, fallback answers with
`{"difficulty":"easy"}`; the result is that parsed object. -/
theorem classifyIssue_fallback_attempt_witness :
    classifyIssue cEx pbFallbackOk "t" "d" "JavaScript" ["bug"] =
      .ok (some (.obj [("difficulty", .str "easy")])) :=
  (classifyIssue_fallback_attempt cEx pbFallbackOk "t" "d" "JavaScript" ["bug"] errProv
    rfl).2.2 respEasy "\x7b\"difficulty\":\"easy\"\x7d"
    (.obj [("difficulty", .str "easy")]) rfl rfl rfl

/-- C3: when the primary completion call succeeds and its response text yields
a parseable JSON object, `classifyIssue` returns exactly
`extractJSON(primary response text)` and the fallback provider is never
invoked. -/
theorem classifyIssue_primary_success (c : IssueClassifier) (pb : ProviderBehavior)
    (t d l : String) (ls : List String) (resp : ChatResponse) (s : String) (j : Json)
    (hresp : pb.primary (primaryRequest c (buildPrompt t d l ls)) = .ok resp)
    (htext : respText resp = .ok s)
    (hjson : extractJSON s = .ok j) :
    classifyIssue c pb t d l ls = .ok (some j) ∧
    (classifyIssueT c pb t d l ls).2 = [(.primary, primaryRequest c (buildPrompt t d l ls))] ∧
    (∀ req, (ProviderTag.fallback, req) ∉ (classifyIssueT c pb t d l ls).2) := by
  have hp : runAttempt pb.primary (primaryRequest c (buildPrompt t d l ls)) = .ok j := by
    simp only [runAttempt, hresp]
    show respText resp >>= (fun s => extractJSON s) = Except.ok j
    rw [htext]
    show extractJSON s = Except.ok j
    exact hjson
  have hT := classifyIssueT_primary_ok c pb t d l ls j hp
  refine ⟨by rw [classifyIssue, hT], by rw [hT], ?_⟩
  intro req hmem
  rw [hT] at hmem
  simp at hmem

/-- Witness for C3: the primary answers with `{"difficulty":"difficult"}`; the
result is that parsed object and the trace holds only the primary call. -/
theorem classifyIssue_primary_success_witness :
    classifyIssue cEx pbPrimaryOk "t" "d" "JavaScript" ["bug"] =
      .ok (some (.obj [("difficulty", .str "difficult")])) :=
  (classifyIssue_primary_success cEx pbPrimaryOk "t" "d" "JavaScript" ["bug"]
    respDifficult "\x7b\"difficulty\":\"difficult\"\x7d"
    (.obj [("difficulty", .str "difficult")]) rfl rfl rfl).1

/-- C4: `extractJSON` removes code-fence markers, trims whitespace, and parses
the span of the cleaned text running from the first opening brace to the last
closing brace (spanning newlines, not a minimal pair).  A fenced
```json block containing `{"difficulty":"easy"}` yields that object, and
`"Here is the result: {"difficulty":"medium"} thanks"` yields
`{difficulty: "medium"}`; text with two separate objects is sliced across
both (first brace to last brace) and therefore fails to parse. -/
theorem extractJSON_brace_span :
    (∀ pre mid post : List Char, lbrace ∉ pre → rbrace ∉ post →
      braceSlice (pre ++ lbrace :: (mid ++ rbrace :: post)) =
        some (lbrace :: (mid ++ [rbrace]))) ∧
    extractJSON "```json\n\x7b\"difficulty\":\"easy\"\x7d\n```" =
      .ok (.obj [("difficulty", .str "easy")]) ∧
    extractJSON "Here is the result: \x7b\"difficulty\":\"medium\"\x7d thanks" =
      .ok (.obj [("difficulty", .str "medium")]) ∧
    extractJSON "\x7b\"a\":1\x7d and \x7b\"b\":2\x7d" = .error .malformedJSON := by
  refine ⟨?_, rfl, rfl, rfl⟩
  intro pre mid post hpre hpost
  rw [braceSlice_skip pre _ hpre]
  have hmem : rbrace ∈ mid ++ rbrace :: post :=
    List.mem_append_right _ (List.mem_cons_self _ _)
  simp [braceSlice, hmem, upToLast_last rbrace mid post hpost]

/-- Witness for C4: the brace span of `x{a{b}y` (first brace to last brace,
embedded brace included) is `{a{b}`. -/
theorem extractJSON_brace_span_witness :
    braceSlice (['x'] ++ lbrace :: (['a', lbrace, 'b'] ++ rbrace :: ['y'])) =
      some (lbrace :: (['a', lbrace, 'b'] ++ [rbrace])) :=
  extractJSON_brace_span.1 ['x'] ['a', lbrace, 'b'] ['y'] (by decide) (by decide)

/-- C5: `extractJSON` fails with the no-JSON-found error exactly when the
cleaned text has no brace-delimited substring, fails with the distinct
malformed-JSON error exactly when the brace-delimited substring does not
parse, and has no other failure mode. -/
theorem extractJSON_failure_modes :
    (∀ t : String,
      (extractJSON t = .error .noJSONFound ↔
        braceSlice (jsTrim (stripFences t.toList)) = none) ∧
      (extractJSON t = .error .malformedJSON ↔
        ∃ slice, braceSlice (jsTrim (stripFences t.toList)) = some slice ∧
          jsonParse slice = none) ∧
      (∀ e, extractJSON t = .error e → e = .noJSONFound ∨ e = .malformedJSON)) ∧
    extractJSON "no braces here" = .error .noJSONFound ∧
    extractJSON "\x7bnot valid json\x7d" = .error .malformedJSON := by
  refine ⟨?_, rfl, rfl⟩
  intro t
  cases hb : braceSlice (jsTrim (stripFences t.toList)) with
  | none =>
    simp only [String.toList] at hb
    refine ⟨by simp [extractJSON, hb], by simp [extractJSON, hb], ?_⟩
    intro e he
    simp [extractJSON, hb] at he
    exact Or.inl he.symm
  | some slice =>
    simp only [String.toList] at hb
    cases hj : jsonParse slice with
    | none =>
      refine ⟨by simp [extractJSON, hb, hj], ?_, ?_⟩
      · constructor
        · intro _
          exact ⟨slice, rfl, hj⟩
        · intro _
          simp [extractJSON, hb, hj]
      · intro e he
        simp [extractJSON, hb, hj] at he
        exact Or.inr he.symm
    | some j =>
      refine ⟨by simp [extractJSON, hb, hj], by simp [extractJSON, hb, hj], ?_⟩
      intro e he
      simp [extractJSON, hb, hj] at he

/-- Witness for C5: on text with no braces the failure is the no-JSON-found
error, which lies in the two-error failure taxonomy. -/
theorem extractJSON_failure_modes_witness :
    extractJSON "hello world" = .error .noJSONFound ∧
    (JsError.noJSONFound = .noJSONFound ∨ JsError.noJSONFound = .malformedJSON) :=
  ⟨((extractJSON_failure_modes.1 "hello world").1).mpr rfl,
   (extractJSON_failure_modes.1 "hello world").2.2 .noJSONFound
     (((extractJSON_failure_modes.1 "hello world").1).mpr rfl)⟩

/-- C8: when the brace-delimited substring parses, `extractJSON` returns the
parsed object unchanged — no validation of a `difficulty` field or of its
value; `{}` and `{"difficulty":"impossible"}` come back as-is. -/
theorem extractJSON_no_validation :
    (∀ (t : String) (slice : List Char) (j : Json),
      braceSlice (jsTrim (stripFences t.toList)) = some slice →
      jsonParse slice = some j → extractJSON t = .ok j) ∧
    extractJSON "\x7b\x7d" = .ok (.obj []) ∧
    extractJSON "\x7b\"difficulty\":\"impossible\"\x7d" =
      .ok (.obj [("difficulty", .str "impossible")]) := by
  refine ⟨?_, rfl, rfl⟩
  intro t slice j hb hj
  simp only [String.toList] at hb
  simp [extractJSON, hb, hj]

/-- Witness for C8: an object with no `difficulty` field is returned as-is. -/
theorem extractJSON_no_validation_witness :
    extractJSON "x \x7b\"k\":true\x7d" = .ok (.obj [("k", .bool true)]) :=
  extractJSON_no_validation.1 "x \x7b\"k\":true\x7d" "\x7b\"k\":true\x7d".toList
    (.obj [("k", .bool true)]) rfl rfl

/-- C6: construction succeeds for every triple of non-empty credential
strings, and fails with the configuration error — creating no clients — when
any member is missing (`none`) or the empty string. -/
theorem mkIssueClassifier_contract :
    (∀ k a f : String, k ≠ "" → a ≠ "" → f ≠ "" →
      mkIssueClassifier (some k) (some a) (some f) =
        .ok { mosaiaClient := { apiKey := k, baseURL := "https://api.mosaia.ai/v1/agent" }
              fallbackClient := { apiKey := f, baseURL := "https://openrouter.ai/api/v1" }
              mosaiaAgentId := a }) ∧
    (∀ k a f : Option String,
      (k = none ∨ k = some "" ∨ a = none ∨ a = some "" ∨ f = none ∨ f = some "") →
      ∃ msg, mkIssueClassifier k a f = .error (.configurationError msg)) := by
  constructor
  · intro k a f hk ha hf
    simp [mkIssueClassifier, jsFalsy, hk, ha, hf]
  · intro k a f h
    rcases h with h | h | h | h | h | h <;> subst h <;>
      exact ⟨"All API keys and agent IDs must be provided: mosaiaApiKey, mosaiaAgentId, openRouterApiKey",
        by simp [mkIssueClassifier, jsFalsy]⟩

/-- Witness for C6: a full triple constructs the classifier; an empty
fallback key is rejected with the configuration error. -/
theorem mkIssueClassifier_contract_witness :
    mkIssueClassifier (some "mk-1") (some "agent-1") (some "or-1") =
      .ok { mosaiaClient := { apiKey := "mk-1", baseURL := "https://api.mosaia.ai/v1/agent" }
            fallbackClient := { apiKey := "or-1", baseURL := "https://openrouter.ai/api/v1" }
            mosaiaAgentId := "agent-1" } ∧
    ∃ msg, mkIssueClassifier (some "mk-1") (some "agent-1") (some "") =
      .error (.configurationError msg) :=
  ⟨mkIssueClassifier_contract.1 "mk-1" "agent-1" "or-1"
     (by decide) (by decide) (by decide),
   mkIssueClassifier_contract.2 (some "mk-1") (some "agent-1") (some "")
     (Or.inr (Or.inr (Or.inr (Or.inr (Or.inr rfl)))))⟩

/-- C7: `buildPrompt` is pure and deterministic — identical inputs give
byte-identical output — and its output is the fixed rubric text followed by
the title, description, language, and a label list that is `"None"` for empty
labels and the `", "`-join of the labels in input order otherwise. -/
theorem buildPrompt_pure_shape :
    (∀ (t d l : String) (ls : List String),
      buildPrompt t d l ls =
        promptHead ++ labelString ls ++ promptMid ++ t
          ++ "\n    Description: " ++ d
          ++ "\n    Language: " ++ l
          ++ "\n    Labels: " ++ labelString ls
          ++ "\n    ") ∧
    (∀ (t d l t' d' l' : String) (ls ls' : List String),
      t = t' → d = d' → l = l' → ls = ls' →
      buildPrompt t d l ls = buildPrompt t' d' l' ls') ∧
    (∀ ls : List String, ls = [] → labelString ls = "None") ∧
    (∀ ls : List String, ls ≠ [] → labelString ls = String.intercalate ", " ls) := by
  refine ⟨fun _ _ _ _ => rfl, ?_, ?_, ?_⟩
  · intro t d l t' d' l' ls ls' ht hd hl hls
    rw [ht, hd, hl, hls]
  · intro ls h
    subst h
    rfl
  · intro ls h
    cases ls with
    | nil => exact absurd rfl h
    | cons x xs => simp [labelString]

/-- Witness for C7: determinism at concrete arguments, the `"None"` case, and
the joined-labels case. -/
theorem buildPrompt_pure_shape_witness :
    buildPrompt "a" "b" "c" ["x"] = buildPrompt "a" "b" "c" ["x"] ∧
    labelString [] = "None" ∧
    labelString ["bug", "mobile"] = String.intercalate ", " ["bug", "mobile"] :=
  ⟨buildPrompt_pure_shape.2.1 "a" "b" "c" "a" "b" "c" ["x"] ["x"] rfl rfl rfl rfl,
   buildPrompt_pure_shape.2.2.1 [] rfl,
   buildPrompt_pure_shape.2.2.2 ["bug", "mobile"] (by simp)⟩

/-- C9: `classifyIssue` is deterministic in its inputs and in the providers'
(stubbed) behaviour: two runs with identical arguments and providers that
return identical responses yield identical results. -/
theorem classifyIssue_deterministic (c : IssueClassifier) (pb pb' : ProviderBehavior)
    (t d l : String) (ls : List String)
    (hP : ∀ r, pb.primary r = pb'.primary r)
    (hF : ∀ r, pb.fallback r = pb'.fallback r) :
    classifyIssue c pb t d l ls = classifyIssue c pb' t d l ls := by
  obtain ⟨p₁, f₁⟩ := pb
  obtain ⟨p₂, f₂⟩ := pb'
  have hp : p₁ = p₂ := funext hP
  have hf : f₁ = f₂ := funext hF
  rw [hp, hf]

/-- Witness for C9: two identical stubbed runs agree. -/
theorem classifyIssue_deterministic_witness :
    classifyIssue cEx pbFallbackOk "t" "d" "JavaScript" ["bug"] =
      classifyIssue cEx pbFallbackOk "t" "d" "JavaScript" ["bug"] :=
  classifyIssue_deterministic cEx pbFallbackOk pbFallbackOk "t" "d" "JavaScript" ["bug"]
    (fun _ => rfl) (fun _ => rfl)

/-- C10: a structurally malformed provider response (empty `choices`, or a
choice with no message content) is caught inside the same attempt's handler:
a malformed primary response triggers the one fallback attempt, a malformed
fallback response yields `null`, and no access error escapes
`classifyIssue`. -/
theorem classifyIssue_malformed_response (c : IssueClassifier) (pb : ProviderBehavior)
    (t d l : String) (ls : List String) (resp : ChatResponse)
    (hp : pb.primary (primaryRequest c (buildPrompt t d l ls)) = .ok resp)
    (hm : malformedResp resp) :
    ((classifyIssueT c pb t d l ls).2 =
      [(.primary, primaryRequest c (buildPrompt t d l ls)),
       (.fallback, fallbackRequest (buildPrompt t d l ls))]) ∧
    (∃ r, classifyIssue c pb t d l ls = .ok r) ∧
    (∀ resp' : ChatResponse,
      pb.fallback (fallbackRequest (buildPrompt t d l ls)) = .ok resp' →
      malformedResp resp' → classifyIssue c pb t d l ls = .ok none) := by
  obtain ⟨msg, hrt⟩ := respText_of_malformed resp hm
  have hpa : runAttempt pb.primary (primaryRequest c (buildPrompt t d l ls)) =
      .error (.typeError msg) := by
    simp only [runAttempt, hp]
    show respText resp >>= (fun s => extractJSON s) = Except.error (.typeError msg)
    rw [hrt]
    rfl
  refine ⟨?_, ?_, ?_⟩
  · cases hf : runAttempt pb.fallback (fallbackRequest (buildPrompt t d l ls)) with
    | ok j => rw [classifyIssueT_fallback_ok c pb t d l ls _ j hpa hf]
    | error e₂ => rw [classifyIssueT_both_fail c pb t d l ls _ e₂ hpa hf]
  · cases hf : runAttempt pb.fallback (fallbackRequest (buildPrompt t d l ls)) with
    | ok j =>
      exact ⟨some j, by rw [classifyIssue, classifyIssueT_fallback_ok c pb t d l ls _ j hpa hf]⟩
    | error e₂ =>
      exact ⟨none, by rw [classifyIssue, classifyIssueT_both_fail c pb t d l ls _ e₂ hpa hf]⟩
  · intro resp' hresp' hm'
    obtain ⟨msg', hrt'⟩ := respText_of_malformed resp' hm'
    have hfa : runAttempt pb.fallback (fallbackRequest (buildPrompt t d l ls)) =
        .error (.typeError msg') := by
      simp only [runAttempt, hresp']
      show respText resp' >>= (fun s => extractJSON s) = Except.error (.typeError msg')
      rw [hrt']
      rfl
    rw [classifyIssue, classifyIssueT_both_fail c pb t d l ls _ _ hpa hfa]

/-- Witness for C10: an empty `choices` array on the primary and a
content-less message on the fallback produce `null` with no exception. -/
theorem classifyIssue_malformed_response_witness :
    classifyIssue cEx pbMalformed "t" "d" "JavaScript" [] = .ok none :=
  (classifyIssue_malformed_response cEx pbMalformed "t" "d" "JavaScript" []
    respNoChoices rfl (Or.inl rfl)).2.2 respNoContent rfl
    (Or.inr ⟨{ message := some { content := none } }, [], rfl, Or.inr ⟨{ content := none }, rfl, rfl⟩⟩)
